import Mathlib

/-
Verification of the Weighted-A* search engine and the MDA routing problem model.

The A* reconciliation logic is embedded from astar.py; the MDA state space,
costs, goal test and expansion are embedded from mda_problem.py.  Numeric
values that the source holds in Python ints are modelled as Int/Nat, and the
float-valued costs are modelled as exact rationals (extended with a positive
infinity value where the source uses float inf).
-/

/-- A search node as used by the reconciliation policy: its state and its
accumulated g-cost scalar.  (Embedded from the framework SearchNode; only the
fields the A* policy reads are modelled.) -/
structure SearchNode (σ : Type) where
  state : σ
  g_cost : ℚ
deriving DecidableEq

/-- The A* solver configuration: the heuristic function instantiated for the
problem and the heuristic weight, whose default value is 0.5 (embedded from
AStar.__init__). -/
structure AStar (σ : Type) where
  heuristic_function : σ → ℚ
  heuristic_weight : ℚ := 1 / 2

/-- Embedded from AStar._calc_node_expanding_priority: the f-score
((1 - w) * g) + (w * h). -/
def calc_node_expanding_priority {σ : Type} (solver : AStar σ) (node : SearchNode σ) : ℚ :=
  ((1 - solver.heuristic_weight) * node.g_cost) +
    (solver.heuristic_weight * solver.heuristic_function node.state)

/-- Modelled from the spec: the Open and Close containers (best_first_search.py
is not part of the sources) support membership test and lookup keyed by a
node state; lookup targets the single node currently representing that state. -/
def getNodeByState {σ : Type} [DecidableEq σ] (l : List (SearchNode σ)) (s : σ) :
    Option (SearchNode σ) :=
  l.find? (fun n => decide (n.state = s))

/-- Modelled from the spec: removal from Open or Close is keyed by a state
(the containers are state-keyed maps), deleting the entry for that state. -/
def removeNodeByState {σ : Type} [DecidableEq σ] (l : List (SearchNode σ)) (s : σ) :
    List (SearchNode σ) :=
  l.filter (fun n => decide (n.state ≠ s))

/-- Modelled from the spec: insertion of a node into the Open priority
structure (position in the underlying list is irrelevant to the policy). -/
def pushNode {σ : Type} (l : List (SearchNode σ)) (n : SearchNode σ) :
    List (SearchNode σ) :=
  l ++ [n]

/-- Embedded from AStar._open_successor_node: the open/closed reconciliation
policy applied to a just-created successor node, returning the updated
(open, close) pair.  In the source the close-branch removal call passes the
successor node, and removal is keyed by its state, which equals the stale
entry state. -/
def open_successor_node {σ : Type} [DecidableEq σ]
    (openq closeq : List (SearchNode σ)) (succ : SearchNode σ) :
    List (SearchNode σ) × List (SearchNode σ) :=
  match getNodeByState openq succ.state with
  | some existing_node =>
      if succ.g_cost < existing_node.g_cost then
        (pushNode (removeNodeByState openq succ.state) succ, closeq)
      else
        (openq, closeq)
  | none =>
      match getNodeByState closeq succ.state with
      | some existing_node =>
          if succ.g_cost < existing_node.g_cost then
            (pushNode openq succ, removeNodeByState closeq succ.state)
          else
            (openq, closeq)
      | none => (pushNode openq succ, closeq)

/-- C1: the open/closed reconciliation policy.  If Open holds a node for the
successor state, the successor replaces it exactly when its g-cost is strictly
smaller (Close untouched), else it is discarded.  Otherwise, if Close holds a
node for the state with cost c1 and the successor cost c2 satisfies c2 < c1,
the old entry for the state is removed from Close (no remaining Close node has
that state, all other entries survive) and the successor is inserted into
Open; if c2 >= c1 the candidate is discarded and both containers are
unchanged.  Otherwise the successor is inserted into Open directly. -/
theorem astar_open_close_reconciliation_policy {σ : Type} [DecidableEq σ]
    (openq closeq : List (SearchNode σ)) (succ : SearchNode σ) :
    (∀ ex, getNodeByState openq succ.state = some ex →
        (succ.g_cost < ex.g_cost →
          open_successor_node openq closeq succ =
            (pushNode (removeNodeByState openq succ.state) succ, closeq)) ∧
        (ex.g_cost ≤ succ.g_cost →
          open_successor_node openq closeq succ = (openq, closeq))) ∧
    (getNodeByState openq succ.state = none →
      ∀ ex, getNodeByState closeq succ.state = some ex →
        (succ.g_cost < ex.g_cost →
          (open_successor_node openq closeq succ).1 = pushNode openq succ ∧
          (∀ n ∈ (open_successor_node openq closeq succ).2, n.state ≠ succ.state) ∧
          (∀ n ∈ closeq, n.state ≠ succ.state →
            n ∈ (open_successor_node openq closeq succ).2)) ∧
        (ex.g_cost ≤ succ.g_cost →
          open_successor_node openq closeq succ = (openq, closeq))) ∧
    (getNodeByState openq succ.state = none →
      getNodeByState closeq succ.state = none →
      open_successor_node openq closeq succ = (pushNode openq succ, closeq)) := by
  refine ⟨?_, ?_, ?_⟩
  · intro ex hex
    refine ⟨fun hlt => ?_, fun hge => ?_⟩
    · simp [open_successor_node, hex, hlt]
    · simp [open_successor_node, hex, not_lt.mpr hge]
  · intro ho ex hex
    refine ⟨fun hlt => ?_, fun hge => ?_⟩
    · refine ⟨by simp [open_successor_node, ho, hex, hlt], ?_, ?_⟩
      · intro n hn
        simp only [open_successor_node, ho, hex, if_pos hlt, removeNodeByState,
          List.mem_filter, decide_eq_true_eq] at hn
        exact hn.2
      · intro n hn hne
        simp only [open_successor_node, ho, hex, if_pos hlt, removeNodeByState,
          List.mem_filter, decide_eq_true_eq]
        exact ⟨hn, hne⟩
    · simp [open_successor_node, ho, hex, not_lt.mpr hge]
  · intro ho hc
    simp [open_successor_node, ho, hc]

/-- Witness for C1 at a concrete instance: Open holds a node for state 1 with
cost 5, the candidate for state 1 has cost 3, so the candidate replaces the
existing Open entry. -/
theorem astar_open_close_reconciliation_policy_witness :
    open_successor_node ([⟨1, 5⟩] : List (SearchNode ℕ)) [] ⟨1, 3⟩ =
      (pushNode (removeNodeByState ([⟨1, 5⟩] : List (SearchNode ℕ)) 1) ⟨1, 3⟩, []) :=
  ((astar_open_close_reconciliation_policy [⟨1, 5⟩] [] ⟨1, 3⟩).1 ⟨1, 5⟩
    (by decide)).1 (by decide)

/-- C2: the expansion priority of a node equals (1 - w) * g + w * h, where g
is the accumulated cost, h the heuristic estimate of the node state, and w the
heuristic weight fixed at construction, whose default value is 0.5. -/
theorem astar_expanding_priority_formula {σ : Type} (solver : AStar σ)
    (node : SearchNode σ) :
    calc_node_expanding_priority solver node =
      (1 - solver.heuristic_weight) * node.g_cost +
        solver.heuristic_weight * solver.heuristic_function node.state ∧
    ∀ hf : σ → ℚ, ({ heuristic_function := hf } : AStar σ).heuristic_weight = 1 / 2 :=
  ⟨rfl, fun _ => rfl⟩

/-- Modelled from the spec: a map junction (the streets-map module is not part
of the sources); a site location resolvable by its unique junction index. -/
structure Junction where
  index : ℕ
deriving DecidableEq

instance : LinearOrder Junction :=
  LinearOrder.lift' Junction.index (fun a b h => by cases a; cases b; simpa using h)

/-- Modelled from the spec: a reported apartment (mda_problem_input.py is not
part of the sources): a pickup site with a reporter display name, a demand
count (number of roommates) and a location. -/
structure ApartmentWithSymptomsReport where
  reporter_name : String
  nr_roommates : ℕ
  location : Junction
deriving DecidableEq

/-- Modelled from the spec: a laboratory (mda_problem_input.py is not part of
the sources): a drop-off site with a display name, a matoshim supply count and
a location. -/
structure Laboratory where
  name : String
  max_nr_matoshim : ℕ
  location : Junction
deriving DecidableEq

/-- The tagged union of the three site kinds that MDAState.current_site may
hold (Union[Junction, Laboratory, ApartmentWithSymptomsReport]). -/
inductive MDASite where
  | junction (j : Junction)
  | apartment (a : ApartmentWithSymptomsReport)
  | laboratory (l : Laboratory)
deriving DecidableEq

/-- Embedded from MDAState.current_site isinstance dispatch: true exactly on
laboratory sites. -/
def MDASite.is_laboratory : MDASite → Bool
  | .laboratory _ => true
  | _ => false

/-- Embedded from MDAState: the five state fields of the MDA problem. -/
structure MDAState where
  current_site : MDASite
  tests_on_ambulance : Finset ApartmentWithSymptomsReport
  tests_transferred_to_lab : Finset ApartmentWithSymptomsReport
  nr_matoshim_on_ambulance : ℤ
  visited_labs : Finset Laboratory
deriving DecidableEq

/-- Embedded from MDAState.current_location: apartment and laboratory sites
resolve to their location, a junction site is its own location. -/
def MDAState.current_location (s : MDAState) : Junction :=
  match s.current_site with
  | .junction j => j
  | .apartment a => a.location
  | .laboratory l => l.location

/-- Embedded from MDAState.get_total_nr_tests_taken_and_stored_on_ambulance:
the sum of roommate counts over the apartments whose tests are aboard. -/
def MDAState.get_total_nr_tests_taken_and_stored_on_ambulance (s : MDAState) : ℕ :=
  s.tests_on_ambulance.sum (fun apartment => apartment.nr_roommates)

/-- Embedded from MDAOptimizationObjective. -/
inductive MDAOptimizationObjective where
  | Distance
  | TestsTravelDistance
deriving DecidableEq

/-- The float values arising in MDA costs, modelled as exact rationals
extended with the positive-infinity value the source denotes float inf. -/
inductive MDAFloat where
  | fin (q : ℚ)
  | inf
deriving DecidableEq

/-- Addition of MDA cost scalars: componentwise rational addition, with
infinity absorbing (as Python float addition behaves on these values). -/
def MDAFloat.add : MDAFloat → MDAFloat → MDAFloat
  | .fin a, .fin b => .fin (a + b)
  | _, _ => .inf

instance : Add MDAFloat := ⟨MDAFloat.add⟩

/-- Embedded from MDACost: the two scalar cost components and the
optimization-objective tag. -/
structure MDACost where
  distance_cost : MDAFloat := MDAFloat.fin 0
  tests_travel_distance_cost : MDAFloat := MDAFloat.fin 0
  optimization_objective : MDAOptimizationObjective := MDAOptimizationObjective.Distance
deriving DecidableEq

/-- Embedded from MDACost.__add__: componentwise addition, defined only when
the two objective tags agree; the source asserts the tags agree, so a
mismatch is an assertion failure, modelled as none. -/
def MDACost.add (c1 c2 : MDACost) : Option MDACost :=
  if c2.optimization_objective = c1.optimization_objective then
    some ⟨c1.distance_cost + c2.distance_cost,
          c1.tests_travel_distance_cost + c2.tests_travel_distance_cost,
          c1.optimization_objective⟩
  else
    none

/-- Embedded from MDACost.get_g_cost: select the scalar of the active
objective. -/
def MDACost.get_g_cost (c : MDACost) : MDAFloat :=
  match c.optimization_objective with
  | .Distance => c.distance_cost
  | .TestsTravelDistance => c.tests_travel_distance_cost

/-- Modelled from the spec: the ambulance descriptor of the problem input
(mda_problem_input.py is not part of the sources): initial location, initial
matoshim count and taken-tests storage capacity. -/
structure Ambulance where
  initial_nr_matoshim : ℤ
  taken_tests_storage_capacity : ℕ
  initial_location : Junction

/-- Modelled from the spec: the read-only problem input descriptor
(mda_problem_input.py is not part of the sources): the reported apartments,
the laboratories and the ambulance. -/
structure MDAProblemInput where
  reported_apartments : List ApartmentWithSymptomsReport
  laboratories : List Laboratory
  ambulance : Ambulance

/-- Embedded from MDAProblem.  The dist field is Modelled from the spec: the
external point-to-point distance lookup (CachedMapDistanceFinder is not part
of the sources) returns a distance or an explicit not-found signal. -/
structure MDAProblem where
  problem_input : MDAProblemInput
  dist : Junction → Junction → Option ℚ
  optimization_objective : MDAOptimizationObjective := MDAOptimizationObjective.Distance

/-- Embedded from OperatorResult: successor state, operator cost, operator
name. -/
structure OperatorResult where
  successor_state : MDAState
  operator_cost : MDACost
  operator_name : String
deriving DecidableEq

/-- Embedded from MDAProblem.get_reported_apartments_waiting_to_visit:
all reported apartments minus (transferred union on-ambulance). -/
def MDAProblem.get_reported_apartments_waiting_to_visit (p : MDAProblem)
    (s : MDAState) : Finset ApartmentWithSymptomsReport :=
  p.problem_input.reported_apartments.toFinset \
    (s.tests_transferred_to_lab ∪ s.tests_on_ambulance)

/-- Embedded from MDAProblem.get_operator_cost: infinite components when no
route exists, otherwise the looked-up distance and the tests-weighted
distance, tagged by the problem objective. -/
def MDAProblem.get_operator_cost (p : MDAProblem) (prev_state succ_state : MDAState) :
    MDACost :=
  match p.dist prev_state.current_location succ_state.current_location with
  | none => ⟨MDAFloat.inf, MDAFloat.inf, p.optimization_objective⟩
  | some d =>
      ⟨MDAFloat.fin d,
       MDAFloat.fin ((prev_state.get_total_nr_tests_taken_and_stored_on_ambulance : ℚ) * d),
       p.optimization_objective⟩

/-- Embedded from the apartment-visit guard of expand_state_with_costs:
new_matoshim >= 0 and new_capacity >= 0, where new_matoshim subtracts the
roommate count and new_capacity subtracts the aboard total and the roommate
count from the storage capacity. -/
def can_take_apartment (p : MDAProblem) (s : MDAState)
    (a : ApartmentWithSymptomsReport) : Prop :=
  0 ≤ s.nr_matoshim_on_ambulance - (a.nr_roommates : ℤ) ∧
  0 ≤ (p.problem_input.ambulance.taken_tests_storage_capacity : ℤ) -
      (s.get_total_nr_tests_taken_and_stored_on_ambulance : ℤ) - (a.nr_roommates : ℤ)

instance (p : MDAProblem) (s : MDAState) (a : ApartmentWithSymptomsReport) :
    Decidable (can_take_apartment p s a) := by
  unfold can_take_apartment
  infer_instance

/-- Embedded from the laboratory-visit guard of expand_state_with_costs:
not is_visited_lab or tests_on_ambulance > 0 (the aboard tests total). -/
def can_go_to_lab (s : MDAState) (l : Laboratory) : Prop :=
  l ∉ s.visited_labs ∨ 0 < s.get_total_nr_tests_taken_and_stored_on_ambulance

instance (s : MDAState) (l : Laboratory) : Decidable (can_go_to_lab s l) := by
  unfold can_go_to_lab
  infer_instance

/-- Embedded from the apartment-visit successor construction of
expand_state_with_costs: move to the apartment, add it to the aboard tests,
keep the transferred tests, pay the roommates in matoshim, keep the labs. -/
def visit_successor (s : MDAState) (a : ApartmentWithSymptomsReport) : MDAState :=
  ⟨MDASite.apartment a,
   insert a s.tests_on_ambulance,
   s.tests_transferred_to_lab,
   s.nr_matoshim_on_ambulance - (a.nr_roommates : ℤ),
   s.visited_labs⟩

/-- Embedded from the laboratory-visit successor construction of
expand_state_with_costs: move to the lab, empty the aboard tests into the
transferred set; on a first visit take the lab matoshim and record the lab
as visited, on a repeat visit keep matoshim and visited labs unchanged. -/
def lab_successor (s : MDAState) (l : Laboratory) : MDAState :=
  if l ∈ s.visited_labs then
    ⟨MDASite.laboratory l,
     ∅,
     s.tests_transferred_to_lab ∪ s.tests_on_ambulance,
     s.nr_matoshim_on_ambulance,
     s.visited_labs⟩
  else
    ⟨MDASite.laboratory l,
     ∅,
     s.tests_transferred_to_lab ∪ s.tests_on_ambulance,
     s.nr_matoshim_on_ambulance + (l.max_nr_matoshim : ℤ),
     insert l s.visited_labs⟩

/-- Embedded from MDAProblem.expand_state_with_costs: the successor relation,
as the set of yielded OperatorResult values (the generator yields each member
once; the claims are about membership, not yield order). -/
def MDAProblem.expand_state_with_costs (p : MDAProblem) (s : MDAState) :
    Finset OperatorResult :=
  ((p.get_reported_apartments_waiting_to_visit s).filter (can_take_apartment p s)).image
    (fun a =>
      ⟨visit_successor s a, p.get_operator_cost s (visit_successor s a),
       "visit " ++ a.reporter_name⟩) ∪
  (p.problem_input.laboratories.toFinset.filter (can_go_to_lab s)).image
    (fun l =>
      ⟨lab_successor s l, p.get_operator_cost s (lab_successor s l),
       "go to lab " ++ l.name⟩)

/-- Embedded from MDAProblem.is_goal: at a laboratory, all reported
apartments transferred, nothing aboard, non-negative matoshim, visited labs
among the input laboratories. -/
def MDAProblem.is_goal (p : MDAProblem) (s : MDAState) : Bool :=
  s.current_site.is_laboratory &&
  decide (p.problem_input.reported_apartments.toFinset = s.tests_transferred_to_lab) &&
  decide ((∅ : Finset ApartmentWithSymptomsReport) = s.tests_on_ambulance) &&
  decide (0 ≤ s.nr_matoshim_on_ambulance) &&
  decide (s.visited_labs ⊆ p.problem_input.laboratories.toFinset)

/-- Embedded from MDAProblem.get_all_certain_junctions_in_remaining_ambulance_path:
the locations of the waiting apartments together with the current location,
as a list sorted ascendingly by junction index. -/
def MDAProblem.get_all_certain_junctions_in_remaining_ambulance_path
    (p : MDAProblem) (s : MDAState) : List Junction :=
  (((p.get_reported_apartments_waiting_to_visit s).image
      (fun e => e.location)) ∪ {s.current_location}).sort (· ≤ ·)

/-- The one-step successor relation generated by expand_state_with_costs. -/
def mda_step (p : MDAProblem) (s t : MDAState) : Prop :=
  ∃ r ∈ p.expand_state_with_costs s, r.successor_state = t

/-- Membership in the waiting set unfolds to: reported, not yet transferred,
not aboard. -/
theorem mem_waiting_iff (p : MDAProblem) (s : MDAState)
    (a : ApartmentWithSymptomsReport) :
    a ∈ p.get_reported_apartments_waiting_to_visit s ↔
      a ∈ p.problem_input.reported_apartments ∧
        a ∉ s.tests_transferred_to_lab ∧ a ∉ s.tests_on_ambulance := by
  simp [MDAProblem.get_reported_apartments_waiting_to_visit, not_or, and_assoc]

/-- The current site of an apartment-visit successor is that apartment. -/
theorem visit_successor_current_site (s : MDAState) (a : ApartmentWithSymptomsReport) :
    (visit_successor s a).current_site = MDASite.apartment a := rfl

/-- The current site of a laboratory-visit successor is that laboratory. -/
theorem lab_successor_current_site (s : MDAState) (l : Laboratory) :
    (lab_successor s l).current_site = MDASite.laboratory l := by
  unfold lab_successor
  split <;> rfl

/-- Membership in the expansion result: exactly the guarded apartment visits
and the guarded laboratory visits. -/
theorem mem_expand_iff (p : MDAProblem) (s : MDAState) (r : OperatorResult) :
    r ∈ p.expand_state_with_costs s ↔
      ((∃ a, (a ∈ p.get_reported_apartments_waiting_to_visit s ∧
          can_take_apartment p s a) ∧
        OperatorResult.mk (visit_successor s a)
          (p.get_operator_cost s (visit_successor s a)) ("visit " ++ a.reporter_name) = r) ∨
      (∃ l, (l ∈ p.problem_input.laboratories ∧ can_go_to_lab s l) ∧
        OperatorResult.mk (lab_successor s l)
          (p.get_operator_cost s (lab_successor s l)) ("go to lab " ++ l.name) = r)) := by
  simp [MDAProblem.expand_state_with_costs, and_assoc]

/-- C3: for a reported apartment a, the expansion of s yields a pickup
successor for a iff a is neither aboard nor transferred, the matoshim count
minus the roommate count is non-negative, and the aboard total plus the
roommate count does not exceed the storage capacity; the yielded successor
moves to a, adds a to the aboard tests, pays the roommates in matoshim,
keeps the other fields, and is labelled visit reporter-name. -/
theorem mda_pickup_successor_characterization (p : MDAProblem) (s : MDAState)
    (a : ApartmentWithSymptomsReport)
    (ha : a ∈ p.problem_input.reported_apartments) :
    ((∃ r ∈ p.expand_state_with_costs s,
        r.successor_state.current_site = MDASite.apartment a) ↔
      (a ∉ s.tests_on_ambulance ∧ a ∉ s.tests_transferred_to_lab ∧
        0 ≤ s.nr_matoshim_on_ambulance - (a.nr_roommates : ℤ) ∧
        (s.get_total_nr_tests_taken_and_stored_on_ambulance : ℤ) + (a.nr_roommates : ℤ) ≤
          (p.problem_input.ambulance.taken_tests_storage_capacity : ℤ))) ∧
    (∀ r ∈ p.expand_state_with_costs s,
      r.successor_state.current_site = MDASite.apartment a →
        r.successor_state.tests_on_ambulance = insert a s.tests_on_ambulance ∧
        r.successor_state.tests_transferred_to_lab = s.tests_transferred_to_lab ∧
        r.successor_state.nr_matoshim_on_ambulance =
          s.nr_matoshim_on_ambulance - (a.nr_roommates : ℤ) ∧
        r.successor_state.visited_labs = s.visited_labs ∧
        r.operator_name = "visit " ++ a.reporter_name) := by
  constructor
  · constructor
    · rintro ⟨r, hr, hsite⟩
      rcases (mem_expand_iff p s r).1 hr with ⟨b, ⟨hw, hg⟩, rfl⟩ | ⟨l, ⟨hl, hgl⟩, rfl⟩
      · have hba : b = a := by simpa [visit_successor] using hsite
        subst hba
        obtain ⟨hrep, htr, hon⟩ := (mem_waiting_iff p s b).1 hw
        obtain ⟨hm, hc⟩ := hg
        exact ⟨hon, htr, hm, by omega⟩
      · rw [lab_successor_current_site] at hsite
        simp at hsite
    · rintro ⟨h1, h2, h3, h4⟩
      refine ⟨⟨visit_successor s a, p.get_operator_cost s (visit_successor s a),
        "visit " ++ a.reporter_name⟩, ?_, rfl⟩
      exact (mem_expand_iff p s _).2
        (Or.inl ⟨a, ⟨(mem_waiting_iff p s a).2 ⟨ha, h2, h1⟩, ⟨h3, by omega⟩⟩, rfl⟩)
  · intro r hr hsite
    rcases (mem_expand_iff p s r).1 hr with ⟨b, ⟨hw, hg⟩, rfl⟩ | ⟨l, ⟨hl, hgl⟩, rfl⟩
    · have hba : b = a := by simpa [visit_successor] using hsite
      subst hba
      simp [visit_successor]
    · rw [lab_successor_current_site] at hsite
      simp at hsite

/-- A concrete reported apartment used in witnesses. -/
def aAnn : ApartmentWithSymptomsReport := ⟨"Ann", 1, ⟨0⟩⟩

/-- A concrete laboratory used in witnesses. -/
def labOne : Laboratory := ⟨"Lab1", 2, ⟨1⟩⟩

/-- A concrete MDA problem used in witnesses: one reported apartment, one
laboratory, ambulance with 3 matoshim and capacity 2, all distances 1. -/
def witProblem : MDAProblem :=
  ⟨⟨[aAnn], [labOne], ⟨3, 2, ⟨2⟩⟩⟩, fun _ _ => some 1,
   MDAOptimizationObjective.Distance⟩

/-- A concrete initial-like MDA state used in witnesses. -/
def witState : MDAState := ⟨MDASite.junction ⟨2⟩, ∅, ∅, 3, ∅⟩

/-- Witness for C3 at a concrete instance: in the initial state of the
witness problem the apartment aAnn is waiting and within resources, and the
pickup successor carries it aboard and pays one matosh. -/
theorem mda_pickup_successor_characterization_witness :
    (visit_successor witState aAnn).tests_on_ambulance =
      insert aAnn witState.tests_on_ambulance ∧
    (visit_successor witState aAnn).nr_matoshim_on_ambulance =
      witState.nr_matoshim_on_ambulance - (aAnn.nr_roommates : ℤ) ∧
    (visit_successor witState aAnn).visited_labs = witState.visited_labs := by
  have h := (mda_pickup_successor_characterization witProblem witState aAnn
      (by decide)).2
    ⟨visit_successor witState aAnn,
     witProblem.get_operator_cost witState (visit_successor witState aAnn),
     "visit " ++ aAnn.reporter_name⟩
    ((mem_expand_iff witProblem witState _).2
      (Or.inl ⟨aAnn, ⟨by decide, by decide⟩, rfl⟩))
    rfl
  exact ⟨h.1, h.2.2.1, h.2.2.2.1⟩

/-- A zero-roommates reported apartment, exercising the divergence between a
non-empty aboard set and a zero aboard tests total. -/
def aZero : ApartmentWithSymptomsReport := ⟨"Zed", 0, ⟨0⟩⟩

/-- The MDA problem of the C4 counterexample: one reported apartment with
zero roommates and one laboratory. -/
def cexProblem : MDAProblem :=
  ⟨⟨[aZero], [labOne], ⟨3, 2, ⟨2⟩⟩⟩, fun _ _ => some 1,
   MDAOptimizationObjective.Distance⟩

/-- The MDA state of the C4 counterexample: at the already visited
laboratory, with the zero-roommates apartment aboard, so the aboard set is
non-empty while the aboard tests total is zero. -/
def cexState : MDAState :=
  ⟨MDASite.laboratory labOne, {aZero}, ∅, 3, {labOne}⟩

/-- Counterexample to C4 as stated: in cexState the laboratory labOne has
been visited and the aboard set is non-empty, so the claim demands a
lab-visit successor, but the code guard compares the aboard tests total
(which is zero here) against zero, so no lab-visit successor is yielded. -/
theorem mda_lab_eligibility_claim_false :
    ¬ ((∃ r ∈ cexProblem.expand_state_with_costs cexState,
          r.successor_state.current_site = MDASite.laboratory labOne) ↔
        (labOne ∉ cexState.visited_labs ∨
          cexState.tests_on_ambulance ≠ ∅)) := by
  intro h
  rcases h.2 (Or.inr (by decide)) with ⟨r, hr, hsite⟩
  rcases (mem_expand_iff cexProblem cexState r).1 hr with
    ⟨b, hb, rfl⟩ | ⟨l, ⟨hl, hgl⟩, rfl⟩
  · rw [visit_successor_current_site] at hsite
    simp at hsite
  · have hll : l = labOne := by simpa [cexProblem] using hl
    subst hll
    rcases hgl with h1 | h2
    · exact h1 (by decide)
    · revert h2
      decide

/-- C4 (amended): for a laboratory L of the problem input, the expansion of s
yields a lab-visit successor for L iff L has never been visited or the total
number of tests aboard the ambulance is positive; on a first visit the
matoshim count is increased by the lab supply and L joins the visited labs,
on a repeat visit both are unchanged; in both cases the aboard tests move to
the transferred set, the aboard set becomes empty, and the operator label is
go to lab L-name. -/
theorem mda_lab_successor_characterization (p : MDAProblem) (s : MDAState)
    (l : Laboratory) (hl : l ∈ p.problem_input.laboratories) :
    ((∃ r ∈ p.expand_state_with_costs s,
        r.successor_state.current_site = MDASite.laboratory l) ↔
      (l ∉ s.visited_labs ∨
        0 < s.get_total_nr_tests_taken_and_stored_on_ambulance)) ∧
    (∀ r ∈ p.expand_state_with_costs s,
      r.successor_state.current_site = MDASite.laboratory l →
        r.successor_state.tests_on_ambulance = ∅ ∧
        r.successor_state.tests_transferred_to_lab =
          s.tests_transferred_to_lab ∪ s.tests_on_ambulance ∧
        (l ∉ s.visited_labs →
          r.successor_state.nr_matoshim_on_ambulance =
            s.nr_matoshim_on_ambulance + (l.max_nr_matoshim : ℤ) ∧
          r.successor_state.visited_labs = insert l s.visited_labs) ∧
        (l ∈ s.visited_labs →
          r.successor_state.nr_matoshim_on_ambulance = s.nr_matoshim_on_ambulance ∧
          r.successor_state.visited_labs = s.visited_labs) ∧
        r.operator_name = "go to lab " ++ l.name) := by
  constructor
  · constructor
    · rintro ⟨r, hr, hsite⟩
      rcases (mem_expand_iff p s r).1 hr with
        ⟨b, hb, rfl⟩ | ⟨m, ⟨hm, hgm⟩, rfl⟩
      · rw [visit_successor_current_site] at hsite
        simp at hsite
      · rw [lab_successor_current_site] at hsite
        have hml : m = l := by simpa using hsite
        subst hml
        exact hgm
    · intro hcond
      exact ⟨⟨lab_successor s l, p.get_operator_cost s (lab_successor s l),
          "go to lab " ++ l.name⟩,
        (mem_expand_iff p s _).2 (Or.inr ⟨l, ⟨hl, hcond⟩, rfl⟩),
        lab_successor_current_site s l⟩
  · intro r hr hsite
    rcases (mem_expand_iff p s r).1 hr with
      ⟨b, hb, rfl⟩ | ⟨m, ⟨hm, hgm⟩, rfl⟩
    · rw [visit_successor_current_site] at hsite
      simp at hsite
    · rw [lab_successor_current_site] at hsite
      have hml : m = l := by simpa using hsite
      subst hml
      by_cases hvl : m ∈ s.visited_labs <;> simp [lab_successor, hvl]

/-- Witness for the amended C4 at a concrete instance: the first visit of
labOne from the witness initial state empties the ambulance into the
transferred set. -/
theorem mda_lab_successor_characterization_witness :
    (lab_successor witState labOne).tests_on_ambulance = ∅ ∧
    (lab_successor witState labOne).tests_transferred_to_lab =
      witState.tests_transferred_to_lab ∪ witState.tests_on_ambulance := by
  have h := (mda_lab_successor_characterization witProblem witState labOne
      (by decide)).2
    ⟨lab_successor witState labOne,
     witProblem.get_operator_cost witState (lab_successor witState labOne),
     "go to lab " ++ labOne.name⟩
    ((mem_expand_iff witProblem witState _).2
      (Or.inr ⟨labOne, ⟨by decide, Or.inl (by decide)⟩, rfl⟩))
    (lab_successor_current_site witState labOne)
  exact ⟨h.1, h.2.1⟩

/-- C5: the goal test holds exactly when the state is at a laboratory, the
transferred set equals the full reported set, nothing is aboard, the matoshim
count is non-negative, and the visited labs are among the input labs. -/
theorem mda_is_goal_characterization (p : MDAProblem) (s : MDAState) :
    p.is_goal s = true ↔
      ((∃ l, s.current_site = MDASite.laboratory l) ∧
        s.tests_transferred_to_lab = p.problem_input.reported_apartments.toFinset ∧
        s.tests_on_ambulance = ∅ ∧
        0 ≤ s.nr_matoshim_on_ambulance ∧
        s.visited_labs ⊆ p.problem_input.laboratories.toFinset) := by
  have hsite : s.current_site.is_laboratory = true ↔
      ∃ l, s.current_site = MDASite.laboratory l := by
    cases h : s.current_site <;> simp [MDASite.is_laboratory]
  simp only [MDAProblem.is_goal, Bool.and_eq_true, decide_eq_true_eq, and_assoc]
  rw [hsite]
  constructor
  · rintro ⟨h1, h2, h3, h4, h5⟩
    exact ⟨h1, h2.symm, h3.symm, h4, h5⟩
  · rintro ⟨h1, h2, h3, h4, h5⟩
    exact ⟨h1, h2.symm, h3.symm, h4, h5⟩

/-- C6: the operator cost has both scalar components infinite when the
distance lookup reports no route, and otherwise equals the looked-up distance
and the aboard-tests-weighted distance; the function is total, so an
unreachable transition is signalled by the infinite cost, not by an error. -/
theorem mda_operator_cost_cases (p : MDAProblem) (prev_state succ_state : MDAState) :
    (p.dist prev_state.current_location succ_state.current_location = none →
      p.get_operator_cost prev_state succ_state =
        ⟨MDAFloat.inf, MDAFloat.inf, p.optimization_objective⟩) ∧
    (∀ d, p.dist prev_state.current_location succ_state.current_location = some d →
      p.get_operator_cost prev_state succ_state =
        ⟨MDAFloat.fin d,
         MDAFloat.fin
           ((prev_state.get_total_nr_tests_taken_and_stored_on_ambulance : ℚ) * d),
         p.optimization_objective⟩) := by
  constructor
  · intro h
    simp [MDAProblem.get_operator_cost, h]
  · intro d h
    simp [MDAProblem.get_operator_cost, h]

/-- Witness for C6 at a concrete instance: the witness problem reports
distance 1 between any two locations, so the operator cost of the pickup
move is the distance and the weighted distance. -/
theorem mda_operator_cost_cases_witness :
    witProblem.get_operator_cost witState (visit_successor witState aAnn) =
      ⟨MDAFloat.fin 1,
       MDAFloat.fin
         ((witState.get_total_nr_tests_taken_and_stored_on_ambulance : ℚ) * 1),
       witProblem.optimization_objective⟩ :=
  (mda_operator_cost_cases witProblem witState (visit_successor witState aAnn)).2 1 rfl

/-- MDAFloat addition written through the Add instance. -/
theorem mdafloat_add_def (x y : MDAFloat) : x + y = MDAFloat.add x y := rfl

/-- MDAFloat addition is commutative. -/
theorem mdafloat_add_comm (x y : MDAFloat) : x + y = y + x := by
  cases x <;> cases y <;> simp [mdafloat_add_def, MDAFloat.add, add_comm]

/-- MDAFloat addition is associative. -/
theorem mdafloat_add_assoc (x y z : MDAFloat) : x + y + z = x + (y + z) := by
  cases x <;> cases y <;> cases z <;> simp [mdafloat_add_def, MDAFloat.add, add_assoc]

/-- C7: MDACost addition is componentwise and preserves the objective tag;
for costs sharing the objective it is commutative and associative in both
scalar components; and adding costs with differing objectives fails (the
assertion in the source, modelled as none) instead of producing a result. -/
theorem mda_cost_add_properties (a b c : MDACost)
    (hab : a.optimization_objective = b.optimization_objective)
    (hbc : b.optimization_objective = c.optimization_objective) :
    MDACost.add a b =
      some ⟨a.distance_cost + b.distance_cost,
            a.tests_travel_distance_cost + b.tests_travel_distance_cost,
            a.optimization_objective⟩ ∧
    MDACost.add a b = MDACost.add b a ∧
    (MDACost.add a b).bind (fun x => MDACost.add x c) =
      (MDACost.add b c).bind (fun y => MDACost.add a y) ∧
    (∀ x y : MDACost, x.optimization_objective ≠ y.optimization_objective →
      MDACost.add x y = none) := by
  refine ⟨?_, ?_, ?_, ?_⟩
  · simp [MDACost.add, hab]
  · simp [MDACost.add, hab, mdafloat_add_comm]
  · simp [MDACost.add, hab, hbc, mdafloat_add_assoc]
  · intro x y hxy
    simp [MDACost.add, Ne.symm hxy]

/-- Witness for C7 at concrete costs sharing the Distance objective. -/
theorem mda_cost_add_properties_witness :
    MDACost.add ⟨MDAFloat.fin 1, MDAFloat.fin 2, MDAOptimizationObjective.Distance⟩
        ⟨MDAFloat.fin 3, MDAFloat.inf, MDAOptimizationObjective.Distance⟩ =
      some ⟨MDAFloat.fin 1 + MDAFloat.fin 3, MDAFloat.fin 2 + MDAFloat.inf,
            MDAOptimizationObjective.Distance⟩ :=
  (mda_cost_add_properties
    ⟨MDAFloat.fin 1, MDAFloat.fin 2, MDAOptimizationObjective.Distance⟩
    ⟨MDAFloat.fin 3, MDAFloat.inf, MDAOptimizationObjective.Distance⟩
    ⟨MDAFloat.fin 0, MDAFloat.fin 0, MDAOptimizationObjective.Distance⟩
    rfl rfl).1

/-- C8: expansion preserves the state invariants: if the aboard and
transferred sets are disjoint and the matoshim count is non-negative, the
same holds of every yielded successor; in particular no successor with a
negative matoshim count is ever constructed. -/
theorem mda_expansion_preserves_invariants (p : MDAProblem) (s : MDAState)
    (hdisj : Disjoint s.tests_on_ambulance s.tests_transferred_to_lab)
    (hm : 0 ≤ s.nr_matoshim_on_ambulance) :
    ∀ r ∈ p.expand_state_with_costs s,
      Disjoint r.successor_state.tests_on_ambulance
        r.successor_state.tests_transferred_to_lab ∧
      0 ≤ r.successor_state.nr_matoshim_on_ambulance := by
  intro r hr
  rcases (mem_expand_iff p s r).1 hr with ⟨a, ⟨hw, hg⟩, rfl⟩ | ⟨l, ⟨hl, hgl⟩, rfl⟩
  · obtain ⟨hrep, htr, hon⟩ := (mem_waiting_iff p s a).1 hw
    constructor
    · simp only [visit_successor, Finset.disjoint_insert_left]
      exact ⟨htr, hdisj⟩
    · exact hg.1
  · constructor
    · unfold lab_successor
      split <;> simp
    · unfold lab_successor
      split <;> simp <;> omega

/-- Witness for C8 at a concrete instance: the pickup successor of the
witness initial state keeps the invariants. -/
theorem mda_expansion_preserves_invariants_witness :
    Disjoint (visit_successor witState aAnn).tests_on_ambulance
      (visit_successor witState aAnn).tests_transferred_to_lab ∧
    0 ≤ (visit_successor witState aAnn).nr_matoshim_on_ambulance :=
  mda_expansion_preserves_invariants witProblem witState (by simp [witState])
    (by decide)
    ⟨visit_successor witState aAnn,
     witProblem.get_operator_cost witState (visit_successor witState aAnn),
     "visit " ++ aAnn.reporter_name⟩
    ((mem_expand_iff witProblem witState _).2
      (Or.inl ⟨aAnn, ⟨by decide, by decide⟩, rfl⟩))

/-- One expansion step never shrinks the transferred set. -/
theorem transferred_subset_of_step (p : MDAProblem) {u v : MDAState}
    (h : mda_step p u v) :
    u.tests_transferred_to_lab ⊆ v.tests_transferred_to_lab := by
  rcases h with ⟨r, hr, rfl⟩
  rcases (mem_expand_iff p u r).1 hr with ⟨a, ha, rfl⟩ | ⟨l, hl, rfl⟩
  · simp [visit_successor]
  · unfold lab_successor
    split <;> simp [Finset.subset_union_left]

/-- C9: the transferred set never shrinks along expansion: every yielded
successor keeps the transferred set as a superset, and hence along any chain
of successor steps the condition that all reported apartments are
transferred, once true, stays true. -/
theorem mda_transferred_monotone (p : MDAProblem) (s : MDAState) :
    (∀ r ∈ p.expand_state_with_costs s,
      s.tests_transferred_to_lab ⊆ r.successor_state.tests_transferred_to_lab) ∧
    (∀ t, Relation.ReflTransGen (mda_step p) s t →
      p.problem_input.reported_apartments.toFinset ⊆ s.tests_transferred_to_lab →
      p.problem_input.reported_apartments.toFinset ⊆ t.tests_transferred_to_lab) := by
  constructor
  · intro r hr
    exact transferred_subset_of_step p ⟨r, hr, rfl⟩
  · intro t ht hsub
    induction ht with
    | refl => exact hsub
    | tail hchain hstep ih =>
        exact fun x hx => transferred_subset_of_step p hstep (ih hx)

/-- A concrete goal-like state for the C9 witness. -/
def witGoalState : MDAState :=
  ⟨MDASite.laboratory labOne, ∅, {aAnn}, 4, {labOne}⟩

/-- Witness for C9 at a concrete instance: along the empty chain from the
goal-like state, all reported apartments stay transferred. -/
theorem mda_transferred_monotone_witness :
    witProblem.problem_input.reported_apartments.toFinset ⊆
      witGoalState.tests_transferred_to_lab :=
  (mda_transferred_monotone witProblem witGoalState).2 witGoalState
    Relation.ReflTransGen.refl (by decide)

/-- C10: the remaining-path junction list is duplicate-free, contains exactly
the current location together with the locations of the reported apartments
neither aboard nor transferred, and is sorted ascendingly by junction
index. -/
theorem mda_remaining_junctions_characterization (p : MDAProblem) (s : MDAState) :
    (p.get_all_certain_junctions_in_remaining_ambulance_path s).Nodup ∧
    (∀ j, j ∈ p.get_all_certain_junctions_in_remaining_ambulance_path s ↔
      (j = s.current_location ∨
        ∃ a, a ∈ p.problem_input.reported_apartments ∧
          a ∉ s.tests_on_ambulance ∧ a ∉ s.tests_transferred_to_lab ∧
          a.location = j)) ∧
    List.Sorted (fun x y => x.index ≤ y.index)
      (p.get_all_certain_junctions_in_remaining_ambulance_path s) := by
  refine ⟨Finset.sort_nodup _ _, ?_, ?_⟩
  · intro j
    simp only [MDAProblem.get_all_certain_junctions_in_remaining_ambulance_path,
      Finset.mem_sort, Finset.mem_union, Finset.mem_image, Finset.mem_singleton]
    constructor
    · rintro (⟨a, ha, rfl⟩ | h)
      · obtain ⟨h1, h2, h3⟩ := (mem_waiting_iff p s a).1 ha
        exact Or.inr ⟨a, h1, h3, h2, rfl⟩
      · exact Or.inl h
    · rintro (h | ⟨a, h1, h2, h3, rfl⟩)
      · exact Or.inr h
      · exact Or.inl ⟨a, (mem_waiting_iff p s a).2 ⟨h1, h3, h2⟩, rfl⟩
  · exact List.Pairwise.imp (fun h => h) (Finset.sort_sorted (· ≤ ·) _)

/-- Witness for C2 at a concrete solver and node: weight one half, g-cost 4,
heuristic value 2. -/
theorem astar_expanding_priority_formula_witness :
    calc_node_expanding_priority (⟨fun _ => 2, 1 / 2⟩ : AStar ℕ) ⟨0, 4⟩ =
      (1 - (1 : ℚ) / 2) * 4 + (1 : ℚ) / 2 * 2 :=
  (astar_expanding_priority_formula (⟨fun _ => 2, 1 / 2⟩ : AStar ℕ) ⟨0, 4⟩).1

/-- Witness for C5 at a concrete instance: the goal-like witness state at
labOne with everything transferred satisfies the goal test. -/
theorem mda_is_goal_characterization_witness :
    witProblem.is_goal witGoalState = true :=
  (mda_is_goal_characterization witProblem witGoalState).2
    ⟨⟨labOne, rfl⟩, by decide, rfl, by decide, by decide⟩

/-- Witness for C10 at a concrete instance: the remaining-path junction list
of the witness initial state is duplicate-free. -/
theorem mda_remaining_junctions_characterization_witness :
    (witProblem.get_all_certain_junctions_in_remaining_ambulance_path
      witState).Nodup :=
  (mda_remaining_junctions_characterization witProblem witState).1
